import Mathlib

/-!
Shallow embedding of the data layer of the `sleepy` status-reporting backend
(`src/old/data.py`).  The SQLAlchemy-backed tables are modelled as plain Lean
structures, the `Data` methods as pure functions with explicit state passing,
and wall-clock time as an explicit `Nat` argument.  Machine integers of the
source are modelled as `Int`/`Nat` (SQLite integers are unbounded for our
purposes; no wraparound occurs in the source).
-/

set_option autoImplicit false

namespace Sleepy

/-- JSON-like value stored in a device's `fields` column (`dict[str, Any]`).
Scalars are modelled opaquely as `prim`; nested mappings as `obj` over an
insertion-ordered association list, mirroring a Python `dict`. -/
inductive JVal where
  | prim (s : String)
  | obj (entries : List (String × JVal))

/-- Lookup in an insertion-ordered association list (Python `dict.get`). -/
def lookupA {α : Type} : List (String × α) → String → Option α
  | [], _ => none
  | (k, v) :: rest, key => if k = key then some v else lookupA rest key

/-- `d[key] = v` on an insertion-ordered association list: an existing key is
updated in place, a new key is appended (Python `dict` semantics). -/
def setA {α : Type} : List (String × α) → String → α → List (String × α)
  | [], key, v => [(key, v)]
  | (k, w) :: rest, key, v =>
    if k = key then (k, v) :: rest else (k, w) :: setA rest key v

/-- Modelled from the spec: `utils.deep_merge_dict` is imported by
`data.py` but `utils.py` is not part of the sources; the spec describes it as
"recursive mapping merge: for each key, if both sides are mappings, merge
recursively, else new value replaces old".  The result keeps the old dict's
entries except where the new dict overrides them. -/
def deepMerge : List (String × JVal) → List (String × JVal) → List (String × JVal)
  | old, [] => old
  | old, (k, JVal.obj n) :: rest =>
    (match lookupA old k with
     | some (JVal.obj o) => deepMerge (setA old k (JVal.obj (deepMerge o n))) rest
     | _ => deepMerge (setA old k (JVal.obj n)) rest)
  | old, (k, v) :: rest => deepMerge (setA old k v) rest
termination_by _ new => sizeOf new
decreasing_by all_goals simp_wf <;> omega

/-- One item of the configured status catalog (`_StatusItemModel`). -/
structure StatusItem where
  id : Int
  name : String
  desc : String
  color : String
deriving Repr, DecidableEq

/-- The singleton `main` table row (`_MainData`). -/
structure MainData where
  status : Int
  private_mode : Bool
  last_updated : Nat
deriving Repr

/-- One `device_status` table row (`_DeviceStatusData`).  `using` and
`status` are nullable columns. -/
structure DeviceRec where
  show_name : String
  device_using : Option Bool
  status : Option String
  fields : List (String × JVal)
  last_updated : Nat

/-- One `metrics` table row (`_MetricsData`), keyed by path. -/
structure MetricRec where
  daily : Int
  weekly : Int
  monthly : Int
  yearly : Int
  total : Int
deriving Repr, DecidableEq

/-- The singleton `metrics_meta` row (`_MetricsMetaData`): stored period
markers. -/
structure MetricsMeta where
  today : String
  week : String
  month : String
  year : String
deriving Repr, DecidableEq

/-- The durable state owned by the `Data` class: main row, device table,
metrics table and metrics metadata. -/
structure DataState where
  main : MainData
  devices : List (String × DeviceRec)
  metrics : List (String × MetricRec)
  meta : MetricsMeta

/-- Device-view policy flags from the config (`config.status`). -/
structure ViewCfg where
  using_first : Bool
  not_using : Option String
  is_sorted : Bool

/-- Python truthiness of the `not_using` config string
(`if self._c.status.not_using:`). -/
def notUsingTruthy (vc : ViewCfg) : Bool :=
  match vc.not_using with
  | some s => decide (s ≠ "")
  | none => false

/-- Replace the view's `status` by the configured not-using override
(`v['status'] = self._c.status.not_using`). -/
def applyNotUsing (vc : ViewCfg) (d : DeviceRec) : DeviceRec :=
  if notUsingTruthy vc then { d with status := vc.not_using } else d

/-- Insertion sort by key, modelling Python `dict(sorted(d.items()))`
(keys are unique, so tuple comparison reduces to key comparison). -/
def insertByKey {α : Type} (x : String × α) : List (String × α) → List (String × α)
  | [] => [x]
  | y :: ys => if x.1 ≤ y.1 then x :: y :: ys else y :: insertByKey x ys

def sortByKey {α : Type} (l : List (String × α)) : List (String × α) :=
  l.foldr insertByKey []

/-- `Data._raw_device_list`: empty under private mode, else the device
table. -/
def rawDeviceList (s : DataState) : List (String × DeviceRec) :=
  if s.main.private_mode then [] else s.devices

/-- `Data.device_list`: the assembled device view.  (`to_primitive` is a
shape-preserving serialization and is modelled as the identity.) -/
def deviceList (vc : ViewCfg) (s : DataState) : List (String × DeviceRec) :=
  if s.main.private_mode then []
  else if vc.using_first then
    let raw := rawDeviceList s
    let dUsing := raw.filter (fun kv => kv.2.device_using = some true)
    let dNot := (raw.filter (fun kv => kv.2.device_using = some false)).map
      (fun kv => (kv.1, applyNotUsing vc kv.2))
    let dUnknown := raw.filter (fun kv => kv.2.device_using = none)
    let dUsing := if vc.is_sorted then sortByKey dUsing else dUsing
    let dNot := if vc.is_sorted then sortByKey dNot else dNot
    let dUnknown := if vc.is_sorted then sortByKey dUnknown else dUnknown
    dUsing ++ dNot ++ dUnknown
  else
    let d := (rawDeviceList s).map
      (fun kv => if kv.2.device_using = some false then (kv.1, applyNotUsing vc kv.2) else kv)
    if vc.is_sorted then sortByKey d else d

/-- Python truthiness test on an optional string (`not id`,
`not show_name`, `status or ...`): `None` and `""` are falsy. -/
def strFalsy : Option String → Bool
  | none => true
  | some s => decide (s = "")

/-- `Data.device_get`: keyed lookup in the device table. -/
def deviceGet (s : DataState) (id : String) : Option DeviceRec :=
  lookupA s.devices id

/-- The device row built on creation (`device = _DeviceStatusData()` followed
by the four assignments; a fresh row's nullable columns start as null and its
`fields` column defaults to the empty dict). -/
def newRec (now : Nat) (show_name : Option String) (device_using : Option Bool)
    (status : Option String) (fields : List (String × JVal)) : DeviceRec :=
  { show_name := show_name.getD ""
    device_using := device_using
    status := if strFalsy status then none else status
    fields := deepMerge [] fields
    last_updated := now }

/-- The update applied to an existing device row: `show_name or old`,
`using if using is not None else old`, `status or old`,
`deep_merge_dict(old.fields, fields)`. -/
def updRec (now : Nat) (r : DeviceRec) (show_name : Option String)
    (device_using : Option Bool) (status : Option String)
    (fields : List (String × JVal)) : DeviceRec :=
  { show_name := if strFalsy show_name then r.show_name else show_name.getD ""
    device_using := match device_using with | some b => some b | none => r.device_using
    status := if strFalsy status then r.status else status
    fields := deepMerge r.fields fields
    last_updated := now }

/-- `Data.device_set`: validation, create-or-update, field merge, commit and
touch of the main row's `last_updated`.  An exception
(`u.APIUnsuccessful(400, ...)`) is modelled as `Except.error 400`; it is
raised before any session mutation, so the store is unchanged. -/
def deviceSet (now : Nat) (s : DataState) (id : Option String)
    (show_name : Option String) (device_using : Option Bool) (status : Option String)
    (fields : List (String × JVal)) : Except Nat DataState :=
  if strFalsy id then Except.error 400
  else
    let idv := id.getD ""
    match lookupA s.devices idv with
    | none =>
      if strFalsy show_name then Except.error 400
      else
        Except.ok { s with devices := setA s.devices idv (newRec now show_name device_using status fields)
                           main := { s.main with last_updated := now } }
    | some d0 =>
      Except.ok { s with devices := setA s.devices idv (updRec now d0 show_name device_using status fields)
                         main := { s.main with last_updated := now } }

/-- Arguments of one `device_set` call (minus the device id). -/
structure DevCall where
  show_name : Option String
  device_using : Option Bool
  status : Option String
  fields : List (String × JVal)

/-- A sequence of `device_set` calls for one device id, stopping at the
first raised error. -/
def deviceSetCalls (now : Nat) (d : String) : DataState → List DevCall → Except Nat DataState
  | s, [] => Except.ok s
  | s, c :: cs =>
    match deviceSet now s (some d) c.show_name c.device_using c.status c.fields with
    | Except.ok s' => deviceSetCalls now d s' cs
    | Except.error e => Except.error e

/-- The fresh state the constructor builds when no rows exist yet. -/
def freshState : DataState :=
  ⟨⟨0, false, 0⟩, [], [], ⟨"", "", "", ""⟩⟩

/-- The all-zero counters a newly created metrics row starts with. -/
def zeroMetric : MetricRec := ⟨0, 0, 0, 0, 0⟩

/-- The counter update of `record_metrics`: overwrite all five counters with
`count` when `override`, else add `count` to all five. -/
def bumpMetric (m0 : MetricRec) (count : Int) (override : Bool) : MetricRec :=
  if override then ⟨count, count, count, count, count⟩
  else ⟨m0.daily + count, m0.weekly + count, m0.monthly + count,
        m0.yearly + count, m0.total + count⟩

/-- `Data.record_metrics`: no-op for a path outside the allow-list, else
fetch-or-create the row (new rows start at zero) and bump it. -/
def recordMetrics (allow : List String) (s : DataState) (path : String)
    (count : Int) (override : Bool) : DataState :=
  if path ∈ allow then
    { s with
        metrics := setA s.metrics path
          (bumpMetric ((lookupA s.metrics path).getD zeroMetric) count override) }
  else s

/-- The four period keys `_metrics_refresh` derives from the wall clock
(`f'{now.year}'`, `f'{now.year}-{now.month}'`, `f'{now.year}-{now.month}-{now.day}'`,
`f'{now.year}-{now.isocalendar().week}'`), taken as abstract inputs. -/
structure PeriodKeys where
  year : String
  month : String
  today : String
  week : String
deriving Repr, DecidableEq

/-- Apply `f` to every value of the table, keeping keys
(`for i in raw_metrics: i.daily = 0` over the scanned rows). -/
def mapVals {α : Type} (f : α → α) (l : List (String × α)) : List (String × α) :=
  l.map (fun pm => (pm.1, f pm.2))

/-- Day rollover pass of `_metrics_refresh`. -/
def refreshDaily (k : PeriodKeys) (s : DataState) : DataState :=
  if k.today ≠ s.meta.today then
    { s with meta := { s.meta with today := k.today },
             metrics := mapVals (fun m => { m with daily := 0 }) s.metrics }
  else s

/-- Week rollover pass of `_metrics_refresh`. -/
def refreshWeekly (k : PeriodKeys) (s : DataState) : DataState :=
  if k.week ≠ s.meta.week then
    { s with meta := { s.meta with week := k.week },
             metrics := mapVals (fun m => { m with weekly := 0 }) s.metrics }
  else s

/-- Month rollover pass of `_metrics_refresh`. -/
def refreshMonthly (k : PeriodKeys) (s : DataState) : DataState :=
  if k.month ≠ s.meta.month then
    { s with meta := { s.meta with month := k.month },
             metrics := mapVals (fun m => { m with monthly := 0 }) s.metrics }
  else s

/-- Year rollover pass of `_metrics_refresh`. -/
def refreshYearly (k : PeriodKeys) (s : DataState) : DataState :=
  if k.year ≠ s.meta.year then
    { s with meta := { s.meta with year := k.year },
             metrics := mapVals (fun m => { m with yearly := 0 }) s.metrics }
  else s

/-- `Data._metrics_refresh`: the four independent marker comparisons, run in
source order (day, week, month, year) against the stored `metrics_meta`
markers, each zeroing its own counter column across all rows. -/
def metricsRefresh (k : PeriodKeys) (s : DataState) : DataState :=
  refreshYearly k (refreshMonthly k (refreshWeekly k (refreshDaily k s)))

/-- One metrics-facing operation: a `record_metrics` call or a
`_metrics_refresh` pass. -/
inductive MOp where
  | came (path : String) (count : Int) (override : Bool)
  | refresh (k : PeriodKeys)

def applyMOp (allow : List String) (s : DataState) : MOp → DataState
  | MOp.came p c o => recordMetrics allow s p c o
  | MOp.refresh k => metricsRefresh k s

def applyMOps (allow : List String) (s : DataState) (ops : List MOp) : DataState :=
  ops.foldl (applyMOp allow) s

/-- All five counters of every metrics row are non-negative. -/
def NonnegMetrics (s : DataState) : Prop :=
  ∀ p m, lookupA s.metrics p = some m →
    0 ≤ m.daily ∧ 0 ≤ m.weekly ∧ 0 ≤ m.monthly ∧ 0 ≤ m.yearly ∧ 0 ≤ m.total

/-- An operation never passes a negative count. -/
def countNonneg : MOp → Bool
  | MOp.came _ c _ => decide (0 ≤ c)
  | MOp.refresh _ => true

/-- A concrete device table holding one device `dev` with status `"old"`. -/
def devCexState : DataState :=
  ⟨⟨0, false, 0⟩, [("dev", ⟨"PC", some true, some "old", [], 0⟩)], [], ⟨"", "", "", ""⟩⟩

/-- Concrete calls for the merge-law witness: create with `{a:{x:1}}`, then
update with `{a:{y:2}}`. -/
def mergeCallA : DevCall := ⟨some "PC", none, none, [("a", JVal.obj [("x", JVal.prim "1")])]⟩

def mergeCallB : DevCall := ⟨none, some true, none, [("a", JVal.obj [("y", JVal.prim "2")])]⟩

/-- The state after running `mergeCallA` then `mergeCallB` for id `pc` on a
fresh store: the fields hold the recursive merge `{a:{x:1,y:2}}`. -/
def mergeFinal : DataState :=
  ⟨⟨0, false, 0⟩,
   [("pc", ⟨"PC", some true, none,
     [("a", JVal.obj [("x", JVal.prim "1"), ("y", JVal.prim "2")])], 0⟩)],
   [], ⟨"", "", "", ""⟩⟩

/-- Python list indexing `lst[i]` for an int `i`: non-negative indices from
the front, negative indices from the back (`lst[-1]` is the last element),
`IndexError` — modelled as `none` — otherwise. -/
def pyIndex {α : Type} (l : List α) (i : Int) : Option α :=
  if 0 ≤ i then l.get? i.toNat
  else if 0 ≤ i + l.length then l.get? (i + l.length).toNat
  else none

/-- The synthesized fallback record `get_status` builds on `IndexError`; the
`id` it carries is the current status id read back from the store. -/
def unknownStatus (current : Int) : StatusItem :=
  ⟨current, "Unknown", "未知的标识符，可能是配置问题。", "error"⟩

/-- `Data.get_status`: look the id up in `config.status.status_list` by
position (Python indexing, so negative ids reach from the back), falling
back to the Unknown/error record on `IndexError`. -/
def getStatus (catalog : List StatusItem) (current : Int) (q : Int) : Bool × StatusItem :=
  match pyIndex catalog q with
  | some item => (true, item)
  | none => (false, unknownStatus current)

/-- A one-entry status catalog for concrete evaluations. -/
def awakeCatalog : List StatusItem := [⟨0, "awake", "I am awake", "awake"⟩]

/-- What the filesystem holds at a resolved path: a regular file with byte
content, nothing, or a directory. -/
inductive DiskObj where
  | file (content : List Nat)
  | missing
  | directory
deriving Repr, DecidableEq

/-- Result of one `get_cached_file` call: a returned byte stream, a `None`
("not found"), or an exception escaping the method uncaught. -/
inductive FileOutcome where
  | found (content : List Nat)
  | notFound
  | raised
deriving Repr, DecidableEq

/-- The config fields the cache reads: `main.debug` and `main.cache_age`. -/
structure CacheCfg where
  debug : Bool
  cache_age : Nat
deriving Repr, DecidableEq

/-- `open(filepath, 'rb')` dispatch.  The source's handler is
`except FileNotFoundError or IsADirectoryError`, and in Python the
expression `A or B` evaluates to `A`, so only `FileNotFoundError` is caught;
`IsADirectoryError` (raised when the path is a directory) escapes. -/
def readDisk (disk : String → DiskObj) (p : String) : FileOutcome :=
  match disk p with
  | DiskObj.file b => FileOutcome.found b
  | DiskObj.missing => FileOutcome.notFound
  | DiskObj.directory => FileOutcome.raised

/-- Outcome, post-call cache contents and number of `open` calls of one
`get_cached_file` invocation. -/
structure FileResult where
  outcome : FileOutcome
  cache : List (String × (Nat × List Nat))
  diskReads : Nat
deriving Repr, DecidableEq

/-- `Data.get_cached_file`: safe path resolution, debug bypass, TTL check
(`now - cached[0] < cache_age`), disk read and store on miss or expiry.
`resolve` stands for `safe_join(u.get_path(dirname), filename)`, `disk` for
the filesystem and `now` for `time()`. -/
def getCachedFile (cfg : CacheCfg) (resolve : String → String → Option String)
    (disk : String → DiskObj) (now : Nat)
    (cache : List (String × (Nat × List Nat))) (dirname filename : String) : FileResult :=
  match resolve dirname filename with
  | none => ⟨FileOutcome.notFound, cache, 0⟩
  | some filepath =>
    if cfg.debug then ⟨readDisk disk filepath, cache, 1⟩
    else
      match lookupA cache ("f-" ++ dirname ++ "/" ++ filename) with
      | some tb =>
        if now - tb.1 < cfg.cache_age then ⟨FileOutcome.found tb.2, cache, 0⟩
        else
          match disk filepath with
          | DiskObj.file b =>
            ⟨FileOutcome.found b, setA cache ("f-" ++ dirname ++ "/" ++ filename) (now, b), 1⟩
          | DiskObj.missing => ⟨FileOutcome.notFound, cache, 1⟩
          | DiskObj.directory => ⟨FileOutcome.raised, cache, 1⟩
      | none =>
        match disk filepath with
        | DiskObj.file b =>
          ⟨FileOutcome.found b, setA cache ("f-" ++ dirname ++ "/" ++ filename) (now, b), 1⟩
        | DiskObj.missing => ⟨FileOutcome.notFound, cache, 1⟩
        | DiskObj.directory => ⟨FileOutcome.raised, cache, 1⟩

/-- Result of one `get_cached_text` call. -/
inductive TextOutcome where
  | found (s : String)
  | notFound
  | raised
deriving Repr, DecidableEq

/-- `Data.get_cached_text`: the byte result decoded as UTF-8 (`decode`
models `str(..., encoding='utf-8')` with `none` on `UnicodeDecodeError`,
mapped to `None`); a returned `BytesIO` is always truthy, a `None` from
`get_cached_file` propagates as `None`. -/
def getCachedText (decode : List Nat → Option String) (cfg : CacheCfg)
    (resolve : String → String → Option String) (disk : String → DiskObj)
    (now : Nat) (cache : List (String × (Nat × List Nat)))
    (dirname filename : String) : TextOutcome × List (String × (Nat × List Nat)) :=
  match (getCachedFile cfg resolve disk now cache dirname filename).outcome with
  | FileOutcome.found b =>
    match decode b with
    | some s => (TextOutcome.found s, (getCachedFile cfg resolve disk now cache dirname filename).cache)
    | none => (TextOutcome.notFound, (getCachedFile cfg resolve disk now cache dirname filename).cache)
  | FileOutcome.notFound =>
    (TextOutcome.notFound, (getCachedFile cfg resolve disk now cache dirname filename).cache)
  | FileOutcome.raised =>
    (TextOutcome.raised, (getCachedFile cfg resolve disk now cache dirname filename).cache)

/-- A resolver mapping every (dir, name) to a fixed path, for concrete
evaluations. -/
def resolveConst (p : String) : String → String → Option String := fun _ _ => some p

end Sleepy

open Sleepy

namespace Sleepy

theorem strFalsy_some (s : String) : strFalsy (some s) = decide (s = "") := rfl

theorem strFalsy_none : strFalsy none = true := rfl

theorem lookupA_setA {α : Type} (l : List (String × α)) (k key : String) (v : α) :
    lookupA (setA l k v) key = if k = key then some v else lookupA l key := by
  induction l with
  | nil => simp [setA, lookupA]
  | cons hd tl ih =>
    obtain ⟨k', w⟩ := hd
    by_cases h1 : k' = k
    · subst h1
      by_cases h2 : k' = key <;> simp [setA, lookupA, h2]
    · by_cases h2 : k' = key
      · subst h2
        have h3 : ¬k = k' := fun h => h1 h.symm
        simp [setA, lookupA, h1, h3]
      · simp [setA, lookupA, h1, h2, ih]

/-- After a run of successful `device_set` calls on an existing device, its
fields are the left fold of `deepMerge` over the supplied field dicts. -/
theorem deviceSetCalls_fields (now : Nat) (d : String) (calls : List DevCall) :
    ∀ s s' r, lookupA s.devices d = some r →
      deviceSetCalls now d s calls = Except.ok s' →
      (deviceGet s' d).map DeviceRec.fields =
        some (List.foldl deepMerge r.fields (calls.map DevCall.fields)) := by
  induction calls with
  | nil =>
    intro s s' r h1 h2
    simp only [deviceSetCalls] at h2
    cases h2
    simp [deviceGet, h1]
  | cons c cs ih =>
    intro s s' r h1 h2
    by_cases hd : d = ""
    · simp [deviceSetCalls, deviceSet, strFalsy, hd] at h2
    · simp only [deviceSetCalls, deviceSet, strFalsy, hd, decide_eq_true_eq,
        if_false, decide_False, Bool.false_eq_true, ite_false, Option.getD_some, h1] at h2
      exact ih _ s' (updRec now r c.show_name c.device_using c.status c.fields)
        (by simp [lookupA_setA]) h2

theorem lookupA_mapVals {α : Type} (f : α → α) (l : List (String × α)) (key : String) :
    lookupA (mapVals f l) key = (lookupA l key).map f := by
  induction l with
  | nil => simp [lookupA, mapVals]
  | cons hd tl ih => by_cases h : hd.1 = key <;> simp [lookupA, mapVals, h, ih] <;> simp [mapVals] at ih <;> exact ih

/-- After one refresh pass the stored markers equal the supplied period
keys (changed markers are overwritten, unchanged ones already agree). -/
theorem metricsRefresh_meta (k : PeriodKeys) (s : DataState) :
    (metricsRefresh k s).meta = ⟨k.today, k.week, k.month, k.year⟩ := by
  obtain ⟨mn, dv, mt, ⟨m1, m2, m3, m4⟩⟩ := s
  unfold metricsRefresh refreshYearly refreshMonthly refreshWeekly refreshDaily
  by_cases h1 : k.today = m1 <;>
    by_cases h2 : k.week = m2 <;>
      by_cases h3 : k.month = m3 <;>
        by_cases h4 : k.year = m4 <;>
          simp [h1, h2, h3, h4]

/-- Pointwise effect of one refresh pass on a metrics row: each counter is
zeroed exactly when its period key differs from the stored marker. -/
theorem metricsRefresh_lookup (k : PeriodKeys) (s : DataState) (p : String) :
    lookupA (metricsRefresh k s).metrics p = (lookupA s.metrics p).map (fun m =>
      { daily := if k.today = s.meta.today then m.daily else 0,
        weekly := if k.week = s.meta.week then m.weekly else 0,
        monthly := if k.month = s.meta.month then m.monthly else 0,
        yearly := if k.year = s.meta.year then m.yearly else 0,
        total := m.total }) := by
  obtain ⟨mn, dv, mt, ⟨m1, m2, m3, m4⟩⟩ := s
  unfold metricsRefresh refreshYearly refreshMonthly refreshWeekly refreshDaily
  by_cases h1 : k.today = m1 <;>
    by_cases h2 : k.week = m2 <;>
      by_cases h3 : k.month = m3 <;>
        by_cases h4 : k.year = m4 <;>
          cases hm : lookupA mt p <;>
            simp [h1, h2, h3, h4, hm, lookupA_mapVals]

/-- A refresh pass whose four keys all match the stored markers changes
nothing. -/
theorem metricsRefresh_noop (k : PeriodKeys) (s : DataState)
    (h : s.meta = ⟨k.today, k.week, k.month, k.year⟩) : metricsRefresh k s = s := by
  unfold metricsRefresh refreshYearly refreshMonthly refreshWeekly refreshDaily
  simp [h]

theorem recordMetrics_nonneg (allow : List String) (s : DataState) (p : String)
    (c : Int) (o : Bool) (h : NonnegMetrics s) (hc : 0 ≤ c) :
    NonnegMetrics (recordMetrics allow s p c o) := by
  intro q m hq
  by_cases hp : p ∈ allow
  · simp only [recordMetrics, if_pos hp, lookupA_setA] at hq
    by_cases hpq : p = q
    · rw [if_pos hpq] at hq
      obtain rfl : bumpMetric ((lookupA s.metrics p).getD zeroMetric) c o = m :=
        Option.some.inj hq
      by_cases ho : o = true
      · subst ho
        simp [bumpMetric, hc]
      · have ho' : o = false := by simpa using ho
        subst ho'
        cases hm : lookupA s.metrics p with
        | none => simp [bumpMetric, zeroMetric, hm] <;> omega
        | some m0 =>
          obtain ⟨g1, g2, g3, g4, g5⟩ := h p m0 hm
          simp [bumpMetric, hm] <;> omega
    · rw [if_neg hpq] at hq
      exact h q m hq
  · simp only [recordMetrics, if_neg hp] at hq
    exact h q m hq

theorem metricsRefresh_nonneg (k : PeriodKeys) (s : DataState) (h : NonnegMetrics s) :
    NonnegMetrics (metricsRefresh k s) := by
  intro q m hq
  rw [metricsRefresh_lookup] at hq
  cases hm : lookupA s.metrics q with
  | none =>
    rw [hm] at hq
    simp at hq
  | some m0 =>
    rw [hm] at hq
    simp only [Option.map_some'] at hq
    obtain ⟨g1, g2, g3, g4, g5⟩ := h q m0 hm
    obtain rfl := Option.some.inj hq.symm
    refine ⟨?_, ?_, ?_, ?_, ?_⟩
    · show 0 ≤ if k.today = s.meta.today then m0.daily else 0
      split_ifs <;> omega
    · show 0 ≤ if k.week = s.meta.week then m0.weekly else 0
      split_ifs <;> omega
    · show 0 ≤ if k.month = s.meta.month then m0.monthly else 0
      split_ifs <;> omega
    · show 0 ≤ if k.year = s.meta.year then m0.yearly else 0
      split_ifs <;> omega
    · exact g5

theorem applyMOps_nonneg (allow : List String) (ops : List MOp) :
    ∀ s, (∀ op ∈ ops, countNonneg op = true) → NonnegMetrics s →
      NonnegMetrics (applyMOps allow s ops) := by
  induction ops with
  | nil =>
    intro s _ hs
    exact hs
  | cons op rest ih =>
    intro s hall hs
    have hop := hall op (List.mem_cons_self op rest)
    have hrest := fun o ho => hall o (List.mem_cons_of_mem op ho)
    cases op with
    | came p c o =>
      exact ih _ hrest (recordMetrics_nonneg allow s p c o hs (by simpa [countNonneg] using hop))
    | refresh k =>
      exact ih _ hrest (metricsRefresh_nonneg k s hs)

theorem freshState_nonneg : NonnegMetrics freshState := by
  intro p m hm
  simp [freshState, lookupA] at hm

end Sleepy

/-- C1: when private_mode is true, `device_list` returns an empty mapping
regardless of the device-table contents; with the same main row it is
constant in the device table. -/
theorem private_mode_device_list_empty (vc : ViewCfg) (s : DataState)
    (d1 d2 : List (String × DeviceRec)) (h : s.main.private_mode = true) :
    deviceList vc s = [] ∧
      deviceList vc { s with devices := d1 } = deviceList vc { s with devices := d2 } := by
  constructor
  · simp [deviceList, h]
  · simp [deviceList, h]

/-- Witness for C1 at a concrete private-mode state. -/
theorem private_mode_device_list_empty_witness :
    deviceList ⟨true, some "idle", true⟩
      ⟨⟨0, true, 0⟩, [("pc", ⟨"PC", some true, none, [], 0⟩)], [], ⟨"", "", "", ""⟩⟩ = [] :=
  (private_mode_device_list_empty ⟨true, some "idle", true⟩
    ⟨⟨0, true, 0⟩, [("pc", ⟨"PC", some true, none, [], 0⟩)], [], ⟨"", "", "", ""⟩⟩
    [] [] rfl).1

/-- C2: for any device id and any sequence of `device_set` calls on it
starting from a state where the device is absent, a subsequent `device_get`
returns a record whose fields equal the left-to-right recursive deep merge of
the supplied field dicts (fields are never replaced wholesale). -/
theorem device_set_fields_deep_merge (now : Nat) (d : String) (s : DataState)
    (c : DevCall) (cs : List DevCall) (s' : DataState)
    (h0 : deviceGet s d = none)
    (h : deviceSetCalls now d s (c :: cs) = Except.ok s') :
    (deviceGet s' d).map DeviceRec.fields =
      some (List.foldl deepMerge [] ((c :: cs).map DevCall.fields)) := by
  simp only [deviceGet] at h0
  by_cases hd : d = ""
  · simp [deviceSetCalls, deviceSet, strFalsy_some, hd] at h
  · by_cases hs : strFalsy c.show_name = true
    · simp [deviceSetCalls, deviceSet, strFalsy_some, hd, h0, hs] at h
    · have hs' : strFalsy c.show_name = false := by simpa using hs
      simp only [deviceSetCalls, deviceSet, strFalsy_some, hd, decide_eq_true_eq, if_false,
        decide_False, Bool.false_eq_true, ite_false, Option.getD_some, h0, hs'] at h
      have h2 := deviceSetCalls_fields now d cs _ s'
        (newRec now c.show_name c.device_using c.status c.fields)
        (by simp [lookupA_setA]) h
      simpa [newRec] using h2

/-- Witness for C2: creating `pc` with fields `{a:{x:1}}` and updating with
`{a:{y:2}}` yields fields `{a:{x:1,y:2}}`, the fold of the deep merge. -/
theorem device_set_fields_deep_merge_witness :
    (deviceGet mergeFinal "pc").map DeviceRec.fields =
      some (List.foldl deepMerge [] ([mergeCallA, mergeCallB].map DevCall.fields)) :=
  device_set_fields_deep_merge 0 "pc" freshState mergeCallA [mergeCallB] mergeFinal rfl
    (by simp [deviceSetCalls, deviceSet, strFalsy, freshState, mergeCallA, mergeCallB,
          mergeFinal, newRec, updRec, lookupA, setA, deepMerge])

/-- C8: `device_set` with a falsy (empty/absent) id fails with error 400, and
creating a new device with a falsy `show_name` fails with error 400; the
error is raised before any session mutation, so no record is created or
modified. -/
theorem device_set_validation_errors (now : Nat) (s : DataState)
    (id sn : Option String) (du : Option Bool) (st : Option String)
    (f : List (String × JVal)) :
    (strFalsy id = true → deviceSet now s id sn du st f = Except.error 400) ∧
    (deviceGet s (id.getD "") = none → strFalsy sn = true →
      deviceSet now s id sn du st f = Except.error 400) := by
  constructor
  · intro h
    simp [deviceSet, h]
  · intro h1 h2
    simp only [deviceGet] at h1
    by_cases hid : strFalsy id = true
    · simp [deviceSet, hid]
    · simp [deviceSet, hid, h1, h2]

/-- Witness for C8: a call with no id on a fresh store errors with 400. -/
theorem device_set_validation_errors_witness :
    deviceSet 0 freshState none none none none [] = Except.error 400 :=
  (device_set_validation_errors 0 freshState none none none none []).1 rfl

/-- Counterexample for C9: the empty string is a non-null `status` argument,
yet `device_set` keeps the old value (`status or device.status` treats `""`
as absent), so a provided non-null argument does not always overwrite. -/
theorem device_set_empty_string_not_overwrite :
    (some "" : Option String) ≠ none ∧
    (deviceSet 1 devCexState (some "dev") none none (some "") []).map
        (fun s' => (deviceGet s' "dev").map DeviceRec.status) =
      Except.ok (some (some "old")) := by
  constructor
  · simp
  · simp [deviceSet, devCexState, strFalsy, lookupA, setA, updRec, deepMerge,
      deviceGet, Except.map]

/-- C9 (amended): on an existing device, a provided non-empty `show_name` or
`status` and a provided non-null `using` overwrite the stored value; an
omitted/null argument — and, for the strings, also an empty one — leaves it
unchanged; fields are deep-merged and the main row's `last_updated` is
touched. -/
theorem device_set_existing_update (now : Nat) (s : DataState) (d : String)
    (sn : Option String) (du : Option Bool) (st : Option String)
    (f : List (String × JVal)) (r : DeviceRec)
    (hd : d ≠ "") (hr : deviceGet s d = some r) :
    ∃ s', deviceSet now s (some d) sn du st f = Except.ok s' ∧
      s'.main.last_updated = now ∧
      ∃ r', deviceGet s' d = some r' ∧
        (strFalsy sn = true → r'.show_name = r.show_name) ∧
        (∀ x, sn = some x → x ≠ "" → r'.show_name = x) ∧
        (du = none → r'.device_using = r.device_using) ∧
        (∀ b, du = some b → r'.device_using = some b) ∧
        (strFalsy st = true → r'.status = r.status) ∧
        (∀ x, st = some x → x ≠ "" → r'.status = some x) ∧
        r'.fields = deepMerge r.fields f := by
  simp only [deviceGet] at hr
  have hstep : deviceSet now s (some d) sn du st f = Except.ok
      { s with devices := setA s.devices d (updRec now r sn du st f)
               main := { s.main with last_updated := now } } := by
    simp [deviceSet, strFalsy, hd, hr]
  refine ⟨_, hstep, rfl, updRec now r sn du st f, ?_, ?_, ?_, ?_, ?_, ?_, ?_, rfl⟩
  · simp [deviceGet, lookupA_setA]
  · intro h
    simp [updRec, h]
  · intro x hx hne
    simp [updRec, strFalsy, hx, hne]
  · intro h
    simp [updRec, h]
  · intro b hb
    simp [updRec, hb]
  · intro h
    simp [updRec, h]
  · intro x hx hne
    simp [updRec, strFalsy, hx, hne]

/-- Witness for C9 at a concrete device and update. -/
theorem device_set_existing_update_witness :
    (deviceSet 1 devCexState (some "dev") none (some false) (some "busy") []).map
        (fun s' => s'.main.last_updated) = Except.ok 1 := by
  obtain ⟨s', hs, hl, -⟩ := device_set_existing_update 1 devCexState "dev"
    none (some false) (some "busy") [] ⟨"PC", some true, some "old", [], 0⟩
    (by decide) rfl
  rw [hs]
  simp [Except.map, hl]

/-- C3: `_metrics_refresh` is idempotent under unchanged period keys — a
second pass with the same four keys changes nothing — and the four
comparisons are independent: each counter of each row is zeroed exactly when
its own period key differs from its stored marker (`total` is never
touched). -/
theorem metrics_refresh_idempotent_independent (k : PeriodKeys) (s : DataState) :
    metricsRefresh k (metricsRefresh k s) = metricsRefresh k s ∧
    ∀ p, lookupA (metricsRefresh k s).metrics p = (lookupA s.metrics p).map (fun m =>
      { daily := if k.today = s.meta.today then m.daily else 0,
        weekly := if k.week = s.meta.week then m.weekly else 0,
        monthly := if k.month = s.meta.month then m.monthly else 0,
        yearly := if k.year = s.meta.year then m.yearly else 0,
        total := m.total }) :=
  ⟨metricsRefresh_noop k _ (metricsRefresh_meta k s), fun p => metricsRefresh_lookup k s p⟩

/-- C4: `record_metrics` is a no-op outside the allow-list; an allow-listed
path is fetch-or-created from all-zero counters and then bumped — added to
or overwritten in all five buckets — so 5 then 3 gives 8 everywhere, and a
following override with 3 gives 3 everywhere. -/
theorem record_metrics_spec (allow : List String) (s : DataState) (p : String)
    (c : Int) (o : Bool) :
    (p ∉ allow → recordMetrics allow s p c o = s) ∧
    (p ∈ allow → lookupA s.metrics p = none →
      lookupA (recordMetrics allow s p c o).metrics p = some ⟨c, c, c, c, c⟩) ∧
    (∀ m0, p ∈ allow → lookupA s.metrics p = some m0 →
      lookupA (recordMetrics allow s p c o).metrics p =
        some (if o then ⟨c, c, c, c, c⟩
          else ⟨m0.daily + c, m0.weekly + c, m0.monthly + c, m0.yearly + c, m0.total + c⟩)) ∧
    (p ∈ allow → lookupA s.metrics p = none →
      lookupA (recordMetrics allow (recordMetrics allow s p 5 false) p 3 false).metrics p =
        some ⟨8, 8, 8, 8, 8⟩ ∧
      lookupA (recordMetrics allow
          (recordMetrics allow (recordMetrics allow s p 5 false) p 3 false) p 3 true).metrics p =
        some ⟨3, 3, 3, 3, 3⟩) := by
  refine ⟨?_, ?_, ?_, ?_⟩
  · intro h
    simp [recordMetrics, h]
  · intro hp hm
    cases o <;> simp [recordMetrics, hp, lookupA_setA, hm, bumpMetric, zeroMetric]
  · intro m0 hp hm
    simp [recordMetrics, hp, lookupA_setA, hm, bumpMetric]
  · intro hp hm
    refine ⟨?_, ?_⟩ <;>
      simp [recordMetrics, hp, lookupA_setA, hm, bumpMetric, zeroMetric,
        MetricRec.mk.injEq] <;> omega

/-- Witness for C4: a non-allow-listed path is a no-op and a fresh
allow-listed path records its count in all buckets. -/
theorem record_metrics_spec_witness :
    recordMetrics ["/"] freshState "/x" 1 false = freshState ∧
    lookupA (recordMetrics ["/"] freshState "/" 4 false).metrics "/" = some ⟨4, 4, 4, 4, 4⟩ :=
  ⟨(record_metrics_spec ["/"] freshState "/x" 1 false).1 (by decide),
   (record_metrics_spec ["/"] freshState "/" 4 false).2.1 (by decide) rfl⟩

/-- Counterexample for C10: `record_metrics` accepts a negative count, so one
call from a fresh store already drives every counter below zero. -/
theorem metrics_negative_count_cex :
    lookupA (applyMOps ["/"] freshState [MOp.came "/" (-1) false]).metrics "/" =
      some ⟨-1, -1, -1, -1, -1⟩ ∧ ¬(0 : Int) ≤ -1 := by
  decide

/-- C10 (amended): after any sequence of `record_metrics` calls with
non-negative counts and `_metrics_refresh` passes starting from a fresh
store, every counter of every metrics row is non-negative. -/
theorem metrics_counters_nonneg (allow : List String) (ops : List MOp)
    (h : ∀ op ∈ ops, countNonneg op = true) :
    NonnegMetrics (applyMOps allow freshState ops) :=
  applyMOps_nonneg allow ops freshState h freshState_nonneg

/-- Witness for C10 on a concrete record-then-refresh run. -/
theorem metrics_counters_nonneg_witness :
    NonnegMetrics (applyMOps ["/"] freshState
      [MOp.came "/" 3 false, MOp.refresh ⟨"2024", "2024-1", "2024-1-2", "2024-1"⟩]) :=
  metrics_counters_nonneg ["/"]
    [MOp.came "/" 3 false, MOp.refresh ⟨"2024", "2024-1", "2024-1-2", "2024-1"⟩]
    (by decide)

/-- Counterexample for C6: with a one-entry catalog, id -1 is outside the
range of valid positions (0..len-1), yet `get_status` returns the catalog's
last entry (Python negative indexing), not the Unknown fallback. -/
theorem get_status_negative_index_cex :
    ((-1 : Int) < 0 ∨ (awakeCatalog.length : Int) ≤ -1) ∧
    (getStatus awakeCatalog 0 (-1)).2.name = "awake" ∧
    (getStatus awakeCatalog 0 (-1)).2.name ≠ "Unknown" := by
  decide

/-- C6 (amended): `get_status` never fails; ids in [0, len) return the entry
at that position, ids in [-len, 0) return the entry at len+id (Python
negative indexing), and all other ids return the synthesized
Unknown/error fallback. -/
theorem get_status_python_index (catalog : List StatusItem) (cur q : Int) :
    (((catalog.length : Int) ≤ q ∨ q < -(catalog.length : Int)) →
      getStatus catalog cur q = (false, unknownStatus cur)) ∧
    ((0 ≤ q ∧ q < (catalog.length : Int)) →
      ∃ hq : q.toNat < catalog.length,
        getStatus catalog cur q = (true, catalog.get ⟨q.toNat, hq⟩)) ∧
    ((-(catalog.length : Int) ≤ q ∧ q < 0) →
      ∃ hq : (q + catalog.length).toNat < catalog.length,
        getStatus catalog cur q = (true, catalog.get ⟨(q + catalog.length).toNat, hq⟩)) := by
  refine ⟨?_, ?_, ?_⟩
  · intro h
    unfold getStatus pyIndex
    rcases h with h | h
    · have h0 : 0 ≤ q := le_trans (Int.natCast_nonneg _) h
      have hlen : catalog.length ≤ q.toNat := by omega
      rw [if_pos h0, List.get?_eq_none.mpr hlen]
    · have h0 : ¬0 ≤ q := by omega
      have h1 : ¬0 ≤ q + (catalog.length : Int) := by omega
      rw [if_neg h0, if_neg h1]
  · rintro ⟨h0, h1⟩
    have hq : q.toNat < catalog.length := by omega
    refine ⟨hq, ?_⟩
    unfold getStatus pyIndex
    rw [if_pos h0, List.get?_eq_get hq]
  · rintro ⟨h0, h1⟩
    have hq : (q + catalog.length).toNat < catalog.length := by omega
    refine ⟨hq, ?_⟩
    unfold getStatus pyIndex
    have hn : ¬0 ≤ q := by omega
    have hp : 0 ≤ q + (catalog.length : Int) := by omega
    rw [if_neg hn, if_pos hp, List.get?_eq_get hq]

/-- Witness for C6: id 5 on a one-entry catalog falls back to Unknown. -/
theorem get_status_python_index_witness :
    getStatus awakeCatalog 0 5 = (false, unknownStatus 0) :=
  (get_status_python_index awakeCatalog 0 5).1 (by decide)

/-- C5: in non-bypass mode with a resolvable path, a cached entry younger
than the TTL is returned unchanged with no disk read; otherwise the file is
read, stored under the key with the current timestamp, and returned — so two
consecutive gets within the TTL cost exactly one disk read, and a get after
the TTL expires performs a second read and replaces the cached bytes. -/
theorem cache_ttl_spec (cfg : CacheCfg) (resolve : String → String → Option String)
    (disk disk2 : String → DiskObj) (t1 t2 t3 : Nat)
    (cache cch : List (String × (Nat × List Nat)))
    (dir name p : String) (b b2 c0 : List Nat) (t0 : Nat)
    (hdbg : cfg.debug = false)
    (hres : resolve dir name = some p) :
    (lookupA cch ("f-" ++ dir ++ "/" ++ name) = some (t0, c0) →
      t2 - t0 < cfg.cache_age →
      getCachedFile cfg resolve disk t2 cch dir name = ⟨FileOutcome.found c0, cch, 0⟩) ∧
    (lookupA cch ("f-" ++ dir ++ "/" ++ name) = none → disk p = DiskObj.file b →
      getCachedFile cfg resolve disk t1 cch dir name =
        ⟨FileOutcome.found b, setA cch ("f-" ++ dir ++ "/" ++ name) (t1, b), 1⟩) ∧
    (lookupA cache ("f-" ++ dir ++ "/" ++ name) = none → disk p = DiskObj.file b →
      t2 - t1 < cfg.cache_age → ¬t3 - t1 < cfg.cache_age → disk2 p = DiskObj.file b2 →
      (getCachedFile cfg resolve disk t1 cache dir name).diskReads +
        (getCachedFile cfg resolve disk t2
          (getCachedFile cfg resolve disk t1 cache dir name).cache dir name).diskReads = 1 ∧
      (getCachedFile cfg resolve disk t2
          (getCachedFile cfg resolve disk t1 cache dir name).cache dir name).outcome =
        FileOutcome.found b ∧
      getCachedFile cfg resolve disk2 t3
          (getCachedFile cfg resolve disk t1 cache dir name).cache dir name =
        ⟨FileOutcome.found b2,
         setA (setA cache ("f-" ++ dir ++ "/" ++ name) (t1, b))
           ("f-" ++ dir ++ "/" ++ name) (t3, b2), 1⟩) := by
  refine ⟨?_, ?_, ?_⟩
  · intro hc hf
    simp [getCachedFile, hres, hdbg, hc, hf]
  · intro hc hd
    simp [getCachedFile, hres, hdbg, hc, hd]
  · intro hc hd hf hst hd2
    have e1 : getCachedFile cfg resolve disk t1 cache dir name =
        ⟨FileOutcome.found b, setA cache ("f-" ++ dir ++ "/" ++ name) (t1, b), 1⟩ := by
      simp [getCachedFile, hres, hdbg, hc, hd]
    have hl : lookupA (setA cache ("f-" ++ dir ++ "/" ++ name) (t1, b))
        ("f-" ++ dir ++ "/" ++ name) = some (t1, b) := by
      simp [lookupA_setA]
    have e2 : getCachedFile cfg resolve disk t2
        (setA cache ("f-" ++ dir ++ "/" ++ name) (t1, b)) dir name =
        ⟨FileOutcome.found b, setA cache ("f-" ++ dir ++ "/" ++ name) (t1, b), 0⟩ := by
      simp [getCachedFile, hres, hdbg, hl, hf]
    have e3 : getCachedFile cfg resolve disk2 t3
        (setA cache ("f-" ++ dir ++ "/" ++ name) (t1, b)) dir name =
        ⟨FileOutcome.found b2,
         setA (setA cache ("f-" ++ dir ++ "/" ++ name) (t1, b))
           ("f-" ++ dir ++ "/" ++ name) (t3, b2), 1⟩ := by
      simp [getCachedFile, hres, hdbg, hl, hst, hd2]
    refine ⟨?_, ?_, ?_⟩
    · rw [e1]
      simp [e2]
    · rw [e1]
      simp [e2]
    · rw [e1]
      simp [e3]

/-- Witness for C5: a fresh cached entry is served with zero disk reads. -/
theorem cache_ttl_spec_witness :
    getCachedFile ⟨false, 10⟩ (resolveConst "/a/f") (fun _ => DiskObj.file [1]) 5
      [("f-a/f", (0, [7]))] "a" "f" = ⟨FileOutcome.found [7], [("f-a/f", (0, [7]))], 0⟩ :=
  (cache_ttl_spec ⟨false, 10⟩ (resolveConst "/a/f") (fun _ => DiskObj.file [1])
      (fun _ => DiskObj.file [1]) 0 5 0 [] [("f-a/f", (0, [7]))] "a" "f" "/a/f"
      [1] [1] [7] 0 rfl rfl).1 (by decide) (by decide)

/-- C7 at the failing input: a resolved path that is a directory makes
`get_cached_file` raise (the `except FileNotFoundError or IsADirectoryError`
clause catches only `FileNotFoundError`), while a missing file yields the
"not found" result and a UTF-8 decode failure makes the text variant yield
"not found" rather than raising. -/
theorem get_cached_file_directory_raises :
    (getCachedFile ⟨false, 60⟩ (resolveConst "static/sub") (fun _ => DiskObj.directory) 0 []
        "static" "sub").outcome = FileOutcome.raised ∧
    (getCachedFile ⟨false, 60⟩ (resolveConst "static/ghost") (fun _ => DiskObj.missing) 0 []
        "static" "ghost").outcome = FileOutcome.notFound ∧
    (getCachedText (fun _ => none) ⟨false, 60⟩ (resolveConst "static/bin")
        (fun _ => DiskObj.file [255]) 0 [] "static" "bin").1 = TextOutcome.notFound := by
  decide
